import Mathlib

/-!
Verification of the mandate route layer (`crates/router/src/routes/mandates.rs`)
and the authenticated-dispatch core it invokes. Route handlers are embedded from
the source; the dispatch core, authentication strategies and list-query
normalization live in sibling crates and are modelled from the spec where noted.
-/

namespace Mandates

/-- Permission tags from `crate::services::authorization::permissions`;
the mandate list route checks `Permission::MerchantMandateRead`. -/
inductive Permission
  | MerchantMandateRead
deriving DecidableEq, Repr

/-- Flow labels attached to each route (`router_env::Flow`); observability
tags with no behavioral effect. -/
inductive Flow
  | MandatesRetrieve
  | MandatesRevoke
  | MandatesList
deriving DecidableEq, Repr

/-- Authentication failure classes (spec §7 taxonomy). -/
inductive AuthError
  | MissingCredential
  | InvalidCredential
  | ExpiredToken
  | InvalidToken
  | InsufficientPermission
deriving DecidableEq, Repr

/-- The credential material of an inbound request as the auth layer sees it:
an optional API key header and an optional bearer token. Absence is a
distinct state from an empty string (spec §3). -/
structure Request where
  api_key : Option String
  bearer_token : Option String
deriving DecidableEq, Repr

/-- Resolved context `auth::AuthenticationData` handed to route handlers,
carrying `merchant_account` and `key_store` as in the source closures, plus
the optional permission set a JWT strategy resolves (spec §3). -/
structure AuthenticationData where
  merchant_account : String
  key_store : String
  permissions : Option (List Permission)
deriving DecidableEq, Repr

/-- Outcome of the external token verifier (spec §6 collaborator). -/
inductive JwtOutcome
  | expired
  | invalid
  | valid (merchant_account : String) (key_store : String)
      (permissions : List Permission)
deriving DecidableEq, Repr

/-- External collaborators consumed by the auth layer (spec §6): the
credential/key-store lookup and the token verifier. -/
structure Env where
  verify_api_key : String → Option (String × String)
  verify_jwt : String → JwtOutcome

/-- The closed set of authentication strategies appearing at the mandate
routes: `ApiKeyAuth`, `HeaderAuth(inner)`, `JWTAuth{permission}` (spec §4.1). -/
inductive AuthStrategy
  | ApiKeyAuth
  | HeaderAuth (inner : AuthStrategy)
  | JWTAuth (permission : Permission)
deriving DecidableEq, Repr

/-- Modelled from the spec: the request header a strategy's credential lives
in; `HeaderAuth` "extracts the credential from a specific request header"
before delegating (spec §4.1). -/
def headerCredential : AuthStrategy → Request → Option String
  | .ApiKeyAuth, r => r.api_key
  | .HeaderAuth inner, r => headerCredential inner r
  | .JWTAuth _, r => r.bearer_token

/-- Modelled from the spec: `ApiKeyAuth` evaluation on the optional API key
(spec §4.1): fails `InvalidCredential` on an absent or unknown key, else
yields the merchant context from the key store. -/
def evaluateApiKey (env : Env) : Option String → Except AuthError AuthenticationData
  | none => .error .InvalidCredential
  | some k =>
    match env.verify_api_key k with
    | none => .error .InvalidCredential
    | some (m, ks) => .ok ⟨m, ks, none⟩

/-- Modelled from the spec: `JWTAuth{permission}` evaluation on the optional
bearer token (spec §4.1): fails `MissingCredential` when the token is absent,
maps verifier failures to `ExpiredToken`/`InvalidToken`, and checks the
resolved permission set for its permission, else `InsufficientPermission`. -/
def evaluateJwt (env : Env) (p : Permission) :
    Option String → Except AuthError AuthenticationData
  | none => .error .MissingCredential
  | some t =>
    match env.verify_jwt t with
    | .expired => .error .ExpiredToken
    | .invalid => .error .InvalidToken
    | .valid m ks perms =>
      if p ∈ perms then .ok ⟨m, ks, some perms⟩
      else .error .InsufficientPermission

/-- Modelled from the spec: `AuthStrategy::evaluate(request)` (spec §4.1); the
strategy implementations live in `crate::services::authentication`, outside
the sources here. `HeaderAuth` fails `MissingCredential` when the header is
absent, else delegates to its inner strategy. -/
def evaluate (env : Env) : AuthStrategy → Request → Except AuthError AuthenticationData
  | .ApiKeyAuth, r => evaluateApiKey env r.api_key
  | .HeaderAuth inner, r =>
      match headerCredential inner r with
      | none => .error .MissingCredential
      | some _ => evaluate env inner r
  | .JWTAuth p, r => evaluateJwt env p r.bearer_token

/-- An authentication specification passed to the dispatch wrapper: a single
strategy or a resolver-composed pair (spec §4.2, §4.4). -/
inductive AuthSpec
  | Single (strategy : AuthStrategy)
  | Pair (primary secondary : AuthStrategy)
deriving DecidableEq, Repr

/-- Modelled from the spec: `AuthResolver::resolve` (spec §4.2). Attempt
`primary` first; if it fails with `MissingCredential`, attempt `secondary`;
any other failure from `primary` is returned immediately. -/
def resolve (env : Env) (primary secondary : AuthStrategy) (r : Request) :
    Except AuthError AuthenticationData :=
  match evaluate env primary r with
  | .ok c => .ok c
  | .error .MissingCredential => evaluate env secondary r
  | .error e => .error e

/-- Resolve an `AuthSpec` against a request. -/
def resolveSpec (env : Env) : AuthSpec → Request → Except AuthError AuthenticationData
  | .Single s, r => evaluate env s r
  | .Pair p s, r => resolve env p s r

/-- Modelled from the spec: `auth::auth_type(default_auth, jwt_auth, headers)`
(`crate::services::authentication`, outside the sources here) composes the two
strategies so that the JWT strategy takes precedence whenever a bearer token
is present; spec §8 gives the effective resolver order as
(JWTAuth, ApiKeyAuth), with fallback to the API-key strategy when the bearer
token is absent. -/
def auth_type (default_auth jwt_auth : AuthStrategy) (_headers : Request) : AuthSpec :=
  .Pair jwt_auth default_auth

/-- Lock actions `api_locking::LockAction` as they appear at the route layer
(spec §3). -/
inductive LockAction
  | NotApplicable
  | AcquireExclusive (resource_key : String)
deriving DecidableEq, Repr

/-- Domain failures reported by the external handler (spec §7). -/
inductive DomainError
  | NotFound
  | Conflict
  | Internal
deriving DecidableEq, Repr

/-- Observable dispatch events: lock acquisition/release on the resource lock
table and handler invocation. -/
inductive Event
  | acquired (key : String)
  | handler_invoked
  | released (key : String)
deriving DecidableEq, Repr

/-- Whether an event trace contains any lock acquisition. -/
def acquiresLock (events : List Event) : Bool :=
  events.any fun e =>
    match e with
    | .acquired _ => true
    | _ => false

/-- Response envelope produced by the dispatch wrapper. -/
structure Response where
  status : Nat
  body : Option String
  auth_error : Option AuthError
deriving DecidableEq, Repr

/-- Full observable outcome of one dispatch: the response, a spy count of
handler invocations, the event trace, and the lock table after dispatch. -/
structure DispatchOutcome where
  flow : Flow
  response : Response
  handler_calls : Nat
  events : List Event
  lock_table : List String
deriving DecidableEq, Repr

/-- Status for a short-circuited authentication failure:
forbidden for `InsufficientPermission`, unauthorized otherwise (spec §4.4, §8). -/
def authStatus : AuthError → Nat
  | .InsufficientPermission => 403
  | _ => 401

/-- Status mapping for domain failures (spec §4.4, §7). -/
def domainStatus : DomainError → Nat
  | .NotFound => 404
  | .Conflict => 409
  | .Internal => 500

/-- Modelled from the spec: steps 4-6 of the dispatch sequence (spec §4.4):
invoke the handler once and map its result (success → 200 with the payload,
domain failure → its mapped status), parameterized by the event trace of the
enclosing lock scope. -/
def invokeHandler (flow : Flow)
    (handler : AuthenticationData → Except DomainError String)
    (ctx : AuthenticationData) (evs : List Event) (table : List String) :
    DispatchOutcome :=
  match handler ctx with
  | .ok payload =>
      { flow := flow,
        response := { status := 200, body := some payload, auth_error := none },
        handler_calls := 1, events := evs, lock_table := table }
  | .error d =>
      { flow := flow,
        response := { status := domainStatus d, body := none, auth_error := none },
        handler_calls := 1, events := evs, lock_table := table }

/-- Modelled from the spec: step 3 of the dispatch sequence (spec §4.3, §4.4):
`NotApplicable` is a no-op that never touches the table; `AcquireExclusive`
short-circuits to a conflict response when the key is already held, else runs
the handler inside an acquire/release scope. -/
def applyLock (flow : Flow) (lock_action : LockAction)
    (handler : AuthenticationData → Except DomainError String)
    (ctx : AuthenticationData) (table : List String) : DispatchOutcome :=
  match lock_action with
  | .NotApplicable => invokeHandler flow handler ctx [.handler_invoked] table
  | .AcquireExclusive key =>
      if key ∈ table then
        { flow := flow,
          response := { status := 409, body := none, auth_error := none },
          handler_calls := 0, events := [], lock_table := table }
      else
        invokeHandler flow handler ctx
          [.acquired key, .handler_invoked, .released key] table

/-- Modelled from the spec: `api::server_wrap` / the DispatchWrapper contract
`dispatch(flow, auth_spec, lock_action, input, handler)` (spec §4.4);
`api::server_wrap` lives in `crate::services::api`, outside the sources here.
Sequence: resolve auth (failure short-circuits to an unauthorized/forbidden
response: handler never invoked, no lock ever acquired) → apply the lock
action (`applyLock`) → invoke the handler and map its result
(`invokeHandler`), releasing any held lock on every exit path, handler
failure included. The lock table holds the currently held resource keys;
acquire appends the key and release removes it, so the table after dispatch
equals the table before. -/
def dispatch (env : Env) (flow : Flow) (auth_spec : AuthSpec)
    (lock_action : LockAction)
    (handler : AuthenticationData → Except DomainError String)
    (r : Request) (table : List String) : DispatchOutcome :=
  match resolveSpec env auth_spec r with
  | .error e =>
      { flow := flow,
        response := { status := authStatus e, body := none, auth_error := some e },
        handler_calls := 0, events := [], lock_table := table }
  | .ok ctx => applyLock flow lock_action handler ctx table

/-- Mandate identifier `mandates::MandateId` (`types::api::mandates`), as
constructed at the route layer: a record holding the raw path string. -/
structure MandateId where
  mandate_id : String
deriving DecidableEq, Repr

/-- Mandate status enumeration (spec §3). -/
inductive MandateStatus
  | Active
  | Inactive
  | Pending
  | Revoked
deriving DecidableEq, Repr

/-- List-route query parameters `api_models::mandates::MandateListConstraints`
as documented at the route (limit, offset, mandate_status,
connector, exact and comparison created_time filters); timestamps are
modelled as integers. -/
structure MandateListConstraints where
  limit : Option Int
  offset : Option Int
  mandate_status : Option MandateStatus
  connector : Option String
  created_time : Option Int
  created_time_lt : Option Int
  created_time_gt : Option Int
  created_time_lte : Option Int
  created_time_gte : Option Int
deriving DecidableEq, Repr

/-- The arguments a route handler passes to `api::server_wrap`: flow tag,
payload, authentication specification and lock action. -/
structure ServerWrapCall (α : Type) where
  flow : Flow
  payload : α
  auth_spec : AuthSpec
  lock_action : LockAction
deriving DecidableEq, Repr

/-- Embedding of `get_mandate` (routes/mandates.rs:30-51): wraps the path
into a `MandateId` and calls `server_wrap` with flow `MandatesRetrieve`,
auth `HeaderAuth(ApiKeyAuth)` and lock `NotApplicable`. -/
def get_mandate (path : String) : ServerWrapCall MandateId :=
  { flow := .MandatesRetrieve,
    payload := { mandate_id := path },
    auth_spec := .Single (.HeaderAuth .ApiKeyAuth),
    lock_action := .NotApplicable }

/-- Embedding of `revoke_mandate` (routes/mandates.rs:55-76): wraps the path
into a `MandateId` and calls `server_wrap` with flow `MandatesRevoke`,
auth `HeaderAuth(ApiKeyAuth)` and lock `NotApplicable`. -/
def revoke_mandate (path : String) : ServerWrapCall MandateId :=
  { flow := .MandatesRevoke,
    payload := { mandate_id := path },
    auth_spec := .Single (.HeaderAuth .ApiKeyAuth),
    lock_action := .NotApplicable }

/-- Embedding of `retrieve_mandates_list` (routes/mandates.rs:101-126): calls
`server_wrap` with flow `MandatesList`, the query payload, the composed
`auth_type(HeaderAuth(ApiKeyAuth), JWTAuth{MerchantMandateRead}, headers)`
and lock `NotApplicable`. -/
def retrieve_mandates_list (payload : MandateListConstraints) (headers : Request) :
    ServerWrapCall MandateListConstraints :=
  { flow := .MandatesList,
    payload := payload,
    auth_spec := auth_type (.HeaderAuth .ApiKeyAuth)
      (.JWTAuth .MerchantMandateRead) headers,
    lock_action := .NotApplicable }

/-- Modelled from the spec: the mandate repository collaborator `get`
(spec §6); `crate::core::mandate::get_mandate` is outside the sources here.
Returns the mandate payload when the id is known and `NotFound` otherwise. -/
def mandate_get (repo : String → Option String) (id : MandateId) :
    AuthenticationData → Except DomainError String :=
  fun _ =>
    match repo id.mandate_id with
    | some payload => .ok payload
    | none => .error .NotFound

/-- Validation failures of list-query normalization (spec §7). -/
inductive ValidationError
  | OutOfBoundsLimit
  | NegativeOffset
deriving DecidableEq, Repr

/-- A present limit must be > 0 and ≤ the configured maximum (spec §3). -/
def limitOk (max_limit : Int) : Option Int → Bool
  | none => true
  | some l => decide (0 < l) && decide (l ≤ max_limit)

/-- A present offset must be non-negative (spec §4.5). -/
def offsetOk : Option Int → Bool
  | none => true
  | some o => decide (0 ≤ o)

/-- Modelled from the spec: MandateQuery `normalize(constraints)` (spec §4.5,
§3); the validation sits in `crate::core::mandate`, outside the sources here.
Limit violations are `OutOfBoundsLimit` (never clamped), a negative offset is
`NegativeOffset`, an exact `created_time` takes precedence over the
comparison variants (which are then ignored), and every other field passes
through untouched. -/
def normalize (max_limit : Int) (c : MandateListConstraints) :
    Except ValidationError MandateListConstraints :=
  if limitOk max_limit c.limit then
    if offsetOk c.offset then
      if c.created_time.isSome then
        .ok { c with created_time_lt := none, created_time_gt := none,
                     created_time_lte := none, created_time_gte := none }
      else .ok c
    else .error .NegativeOffset
  else .error .OutOfBoundsLimit

/-! Concrete fixtures used by witnesses. -/

/-- Environment in which every API key resolves and every bearer token is a
valid JWT carrying `MerchantMandateRead`. -/
def envOk : Env :=
  { verify_api_key := fun _ => some ("merchant_1", "store_1"),
    verify_jwt := fun _ => .valid "merchant_2" "store_2" [.MerchantMandateRead] }

/-- Environment in which every API key resolves but every bearer token fails
verification as invalid. -/
def envBadJwt : Env :=
  { verify_api_key := fun _ => some ("merchant_1", "store_1"),
    verify_jwt := fun _ => .invalid }

/-- Request carrying only an API key. -/
def reqApiOnly : Request := { api_key := some "key_1", bearer_token := none }

/-- Request carrying only a bearer token. -/
def reqJwtOnly : Request := { api_key := none, bearer_token := some "tok_1" }

/-- Request carrying both credential kinds. -/
def reqBoth : Request := { api_key := some "key_1", bearer_token := some "tok_1" }

/-- Request carrying no credential of any kind. -/
def reqNoCred : Request := { api_key := none, bearer_token := none }

/-- Empty list constraints. -/
def cEmpty : MandateListConstraints :=
  { limit := none, offset := none, mandate_status := none, connector := none,
    created_time := none, created_time_lt := none, created_time_gt := none,
    created_time_lte := none, created_time_gte := none }

/-- Handler that always succeeds. -/
def handlerOk : AuthenticationData → Except DomainError String :=
  fun _ => .ok "payload_1"

/-- The context `envOk` resolves for an API-key request. -/
def ctxApi : AuthenticationData :=
  { merchant_account := "merchant_1", key_store := "store_1", permissions := none }

/-! Helper lemmas about the dispatch core, shared by several claims. -/

/-- Handler invocation leaves the lock table argument unchanged. -/
theorem invokeHandler_lock_table (flow : Flow)
    (handler : AuthenticationData → Except DomainError String)
    (ctx : AuthenticationData) (evs : List Event) (table : List String) :
    (invokeHandler flow handler ctx evs table).lock_table = table := by
  unfold invokeHandler
  cases handler ctx <;> rfl

/-- Handler invocation emits exactly the events of its enclosing scope. -/
theorem invokeHandler_events (flow : Flow)
    (handler : AuthenticationData → Except DomainError String)
    (ctx : AuthenticationData) (evs : List Event) (table : List String) :
    (invokeHandler flow handler ctx evs table).events = evs := by
  unfold invokeHandler
  cases handler ctx <;> rfl

/-- Handler invocation calls the handler exactly once. -/
theorem invokeHandler_calls (flow : Flow)
    (handler : AuthenticationData → Except DomainError String)
    (ctx : AuthenticationData) (evs : List Event) (table : List String) :
    (invokeHandler flow handler ctx evs table).handler_calls = 1 := by
  unfold invokeHandler
  cases handler ctx <;> rfl

/-- The lock phase leaves the lock table argument unchanged. -/
theorem applyLock_lock_table (flow : Flow) (lock : LockAction)
    (handler : AuthenticationData → Except DomainError String)
    (ctx : AuthenticationData) (table : List String) :
    (applyLock flow lock handler ctx table).lock_table = table := by
  cases lock with
  | NotApplicable => exact invokeHandler_lock_table _ _ _ _ _
  | AcquireExclusive key =>
    simp only [applyLock]
    by_cases hmem : key ∈ table
    · rw [if_pos hmem]
    · rw [if_neg hmem]
      exact invokeHandler_lock_table _ _ _ _ _

/-- An acquisition event emitted by the lock phase is always followed by a
matching release event: the guard is scoped. -/
theorem applyLock_release (k key : String) (flow : Flow)
    (handler : AuthenticationData → Except DomainError String)
    (ctx : AuthenticationData) (table : List String) :
    Event.acquired k
        ∈ (applyLock flow (.AcquireExclusive key) handler ctx table).events →
    Event.released k
        ∈ (applyLock flow (.AcquireExclusive key) handler ctx table).events := by
  simp only [applyLock]
  by_cases hmem : key ∈ table
  · rw [if_pos hmem]
    intro hk
    simp at hk
  · rw [if_neg hmem, invokeHandler_events]
    intro hk
    simp at hk
    simp [hk]

/-- The lock table after any dispatch equals the table before it: the guard
is scoped, so acquisitions are always paired with releases. -/
theorem lock_table_unchanged (env : Env) (flow : Flow) (spec : AuthSpec)
    (lock : LockAction) (handler : AuthenticationData → Except DomainError String)
    (r : Request) (table : List String) :
    (dispatch env flow spec lock handler r table).lock_table = table := by
  unfold dispatch
  split
  · rfl
  · exact applyLock_lock_table _ _ _ _ _

/-- A dispatch whose lock action is `NotApplicable` never acquires a lock. -/
theorem no_lock_when_not_applicable (env : Env) (flow : Flow) (spec : AuthSpec)
    (handler : AuthenticationData → Except DomainError String)
    (r : Request) (table : List String) :
    acquiresLock (dispatch env flow spec .NotApplicable handler r table).events
      = false := by
  unfold dispatch
  split
  · rfl
  · rename_i ctx heq
    show acquiresLock
      (applyLock flow .NotApplicable handler ctx table).events = false
    simp only [applyLock]
    rw [invokeHandler_events]
    rfl

/-- Evaluating `JWTAuth` on a request that does carry a bearer token never
fails with `MissingCredential`. -/
theorem jwt_no_missing (env : Env) (p : Permission) (r : Request) (t : String)
    (ht : r.bearer_token = some t) :
    evaluate env (.JWTAuth p) r ≠ .error .MissingCredential := by
  unfold evaluate
  rw [ht]
  unfold evaluateJwt
  cases hj : env.verify_jwt t with
  | expired => simp [hj]
  | invalid => simp [hj]
  | valid m ks perms => by_cases hp : p ∈ perms <;> simp [hj, hp]

/-! Claim theorems. -/

/-- C1 counterexample: the revoke route does not invoke the dispatch wrapper
with `AcquireExclusive(mandate_id)`; at path "mdt_1" the declared lock action
is not `AcquireExclusive "mdt_1"`. -/
theorem revoke_lock_not_exclusive_cex :
    (revoke_mandate "mdt_1").lock_action ≠ LockAction.AcquireExclusive "mdt_1" := by
  intro h
  cases h

/-- C1 (amended): `revoke_mandate` passes `LockAction::NotApplicable` to the
dispatch wrapper, so a revoke dispatch never acquires any lock and two
concurrent revoke requests on the same `MandateId` are not serialized at this
layer. -/
theorem revoke_lock_not_applicable (path : String) (env : Env)
    (handler : AuthenticationData → Except DomainError String)
    (r : Request) (table : List String) :
    (revoke_mandate path).lock_action = LockAction.NotApplicable
    ∧ acquiresLock (dispatch env (revoke_mandate path).flow
        (revoke_mandate path).auth_spec (revoke_mandate path).lock_action
        handler r table).events = false :=
  ⟨rfl, no_lock_when_not_applicable env _ _ handler r table⟩

/-- C4: every mandate route handler (`get_mandate`, `revoke_mandate`,
`retrieve_mandates_list`) passes `LockAction::NotApplicable` to
`api::server_wrap`, and a dispatch with `NotApplicable` never touches the
resource lock table: no acquisition event and the table is unchanged. -/
theorem mandate_routes_never_lock (path : String)
    (c : MandateListConstraints) (headers : Request) (env : Env)
    (flow : Flow) (spec : AuthSpec)
    (handler : AuthenticationData → Except DomainError String)
    (r : Request) (table : List String) :
    (get_mandate path).lock_action = LockAction.NotApplicable
    ∧ (revoke_mandate path).lock_action = LockAction.NotApplicable
    ∧ (retrieve_mandates_list c headers).lock_action = LockAction.NotApplicable
    ∧ acquiresLock
        (dispatch env flow spec LockAction.NotApplicable handler r table).events
        = false
    ∧ (dispatch env flow spec LockAction.NotApplicable handler r table).lock_table
        = table :=
  ⟨rfl, rfl, rfl, no_lock_when_not_applicable env flow spec handler r table,
   lock_table_unchanged env flow spec _ handler r table⟩

/-- C3: when authentication resolution fails the dispatch short-circuits to an
unauthorized/forbidden response, the handler is never invoked and no lock is
ever acquired; a request with no credential of any kind against the list
endpoint yields 401 with `MissingCredential` and zero handler calls. -/
theorem auth_failure_short_circuits :
    (∀ (env : Env) (flow : Flow) (spec : AuthSpec) (lock : LockAction)
       (handler : AuthenticationData → Except DomainError String)
       (r : Request) (table : List String) (e : AuthError),
       resolveSpec env spec r = .error e →
       ((dispatch env flow spec lock handler r table).response.status = 401
         ∨ (dispatch env flow spec lock handler r table).response.status = 403)
       ∧ (dispatch env flow spec lock handler r table).handler_calls = 0
       ∧ (dispatch env flow spec lock handler r table).events = [])
    ∧ (∀ (env : Env) (c : MandateListConstraints)
       (handler : AuthenticationData → Except DomainError String)
       (table : List String),
       (dispatch env (retrieve_mandates_list c reqNoCred).flow
          (retrieve_mandates_list c reqNoCred).auth_spec
          (retrieve_mandates_list c reqNoCred).lock_action
          handler reqNoCred table).response.status = 401
       ∧ (dispatch env (retrieve_mandates_list c reqNoCred).flow
          (retrieve_mandates_list c reqNoCred).auth_spec
          (retrieve_mandates_list c reqNoCred).lock_action
          handler reqNoCred table).response.auth_error
          = some AuthError.MissingCredential
       ∧ (dispatch env (retrieve_mandates_list c reqNoCred).flow
          (retrieve_mandates_list c reqNoCred).auth_spec
          (retrieve_mandates_list c reqNoCred).lock_action
          handler reqNoCred table).handler_calls = 0) := by
  constructor
  · intro env flow spec lock handler r table e h
    unfold dispatch
    rw [h]
    refine ⟨?_, rfl, rfl⟩
    cases e
    · exact Or.inl rfl
    · exact Or.inl rfl
    · exact Or.inl rfl
    · exact Or.inl rfl
    · exact Or.inr rfl
  · intro env c handler table
    exact ⟨rfl, rfl, rfl⟩

/-- C3 witness: at the concrete environment `envOk`, the list route with no
credentials short-circuits (status 401, handler never called, no events). -/
theorem auth_failure_short_circuits_witness :
    ((dispatch envOk Flow.MandatesList
        (AuthSpec.Pair (.JWTAuth .MerchantMandateRead) (.HeaderAuth .ApiKeyAuth))
        LockAction.NotApplicable handlerOk reqNoCred []).response.status = 401
      ∨ (dispatch envOk Flow.MandatesList
        (AuthSpec.Pair (.JWTAuth .MerchantMandateRead) (.HeaderAuth .ApiKeyAuth))
        LockAction.NotApplicable handlerOk reqNoCred []).response.status = 403)
    ∧ (dispatch envOk Flow.MandatesList
        (AuthSpec.Pair (.JWTAuth .MerchantMandateRead) (.HeaderAuth .ApiKeyAuth))
        LockAction.NotApplicable handlerOk reqNoCred []).handler_calls = 0
    ∧ (dispatch envOk Flow.MandatesList
        (AuthSpec.Pair (.JWTAuth .MerchantMandateRead) (.HeaderAuth .ApiKeyAuth))
        LockAction.NotApplicable handlerOk reqNoCred []).events = [] :=
  auth_failure_short_circuits.1 envOk Flow.MandatesList
    (AuthSpec.Pair (.JWTAuth .MerchantMandateRead) (.HeaderAuth .ApiKeyAuth))
    LockAction.NotApplicable handlerOk reqNoCred [] AuthError.MissingCredential rfl

/-- C2: the list endpoint accepts either an API key or a bearer token with
`MerchantMandateRead`; whenever a bearer token is present (alone or alongside
an API key) resolution returns the JWT-derived outcome, and when no bearer
token is present it returns the API-key-derived outcome. -/
theorem list_auth_jwt_precedence (env : Env) (c : MandateListConstraints)
    (r : Request) :
    (r.bearer_token.isSome →
      resolveSpec env (retrieve_mandates_list c r).auth_spec r
        = evaluate env (.JWTAuth .MerchantMandateRead) r)
    ∧ (r.bearer_token = none →
      resolveSpec env (retrieve_mandates_list c r).auth_spec r
        = evaluate env (.HeaderAuth .ApiKeyAuth) r) := by
  constructor
  · intro h
    obtain ⟨t, ht⟩ := Option.isSome_iff_exists.mp h
    show resolve env (.JWTAuth .MerchantMandateRead) (.HeaderAuth .ApiKeyAuth) r = _
    unfold resolve
    cases hev : evaluate env (.JWTAuth .MerchantMandateRead) r with
    | ok ctx => rfl
    | error e =>
      cases e with
      | MissingCredential =>
        exact absurd hev (jwt_no_missing env .MerchantMandateRead r t ht)
      | InvalidCredential => rfl
      | ExpiredToken => rfl
      | InvalidToken => rfl
      | InsufficientPermission => rfl
  · intro h
    show resolve env (.JWTAuth .MerchantMandateRead) (.HeaderAuth .ApiKeyAuth) r = _
    unfold resolve
    have hev : evaluate env (.JWTAuth .MerchantMandateRead) r
        = .error .MissingCredential := by
      unfold evaluate
      rw [h]
      rfl
    rw [hev]

/-- C2 witness: with both credentials present resolution is JWT-derived; with
only an API key it is API-key-derived. -/
theorem list_auth_jwt_precedence_witness :
    resolveSpec envOk (retrieve_mandates_list cEmpty reqBoth).auth_spec reqBoth
      = evaluate envOk (.JWTAuth .MerchantMandateRead) reqBoth
    ∧ resolveSpec envOk (retrieve_mandates_list cEmpty reqApiOnly).auth_spec reqApiOnly
      = evaluate envOk (.HeaderAuth .ApiKeyAuth) reqApiOnly :=
  ⟨(list_auth_jwt_precedence envOk cEmpty reqBoth).1 rfl,
   (list_auth_jwt_precedence envOk cEmpty reqApiOnly).2 rfl⟩

/-- C6: the resolver attempts the primary strategy first; the secondary is
attempted exactly when the primary fails with `MissingCredential`; any other
failure class of the primary is returned immediately without fallback. -/
theorem resolver_fallback_policy (env : Env) (p s : AuthStrategy) (r : Request) :
    (∀ c, evaluate env p r = .ok c → resolve env p s r = .ok c)
    ∧ (evaluate env p r = .error .MissingCredential →
        resolve env p s r = evaluate env s r)
    ∧ (∀ e, evaluate env p r = .error e → e ≠ .MissingCredential →
        resolve env p s r = .error e) := by
  refine ⟨?_, ?_, ?_⟩
  · intro c h
    unfold resolve
    rw [h]
  · intro h
    unfold resolve
    rw [h]
  · intro e h hne
    unfold resolve
    cases e with
    | MissingCredential => exact absurd rfl hne
    | InvalidCredential => rw [h]
    | ExpiredToken => rw [h]
    | InvalidToken => rw [h]
    | InsufficientPermission => rw [h]

/-- C6 witness: in an environment whose verifier rejects the token as invalid,
a primary JWT failure of class `InvalidToken` is returned immediately, with
no fallback to the API-key strategy (which would have succeeded). -/
theorem resolver_fallback_policy_witness :
    resolve envBadJwt (.JWTAuth .MerchantMandateRead) (.HeaderAuth .ApiKeyAuth) reqBoth
      = .error .InvalidToken :=
  (resolver_fallback_policy envBadJwt (.JWTAuth .MerchantMandateRead)
      (.HeaderAuth .ApiKeyAuth) reqBoth).2.2 .InvalidToken rfl (by decide)

/-- C5: the retrieve endpoint authenticates with API key only
(`HeaderAuth(ApiKeyAuth)`), declares no lock, and — once authentication
succeeds — responds 200 with the mandate payload when the repository knows
the id and 404 when it is unknown. -/
theorem get_mandate_contract (env : Env) (repo : String → Option String)
    (path : String) (r : Request) (table : List String)
    (ctx : AuthenticationData)
    (hauth : resolveSpec env (get_mandate path).auth_spec r = .ok ctx) :
    (get_mandate path).auth_spec = AuthSpec.Single (.HeaderAuth .ApiKeyAuth)
    ∧ (get_mandate path).lock_action = LockAction.NotApplicable
    ∧ (∀ payload, repo path = some payload →
        dispatch env (get_mandate path).flow (get_mandate path).auth_spec
          (get_mandate path).lock_action
          (mandate_get repo (get_mandate path).payload) r table
        = { flow := .MandatesRetrieve,
            response := { status := 200, body := some payload, auth_error := none },
            handler_calls := 1, events := [.handler_invoked], lock_table := table })
    ∧ (repo path = none →
        (dispatch env (get_mandate path).flow (get_mandate path).auth_spec
          (get_mandate path).lock_action
          (mandate_get repo (get_mandate path).payload) r table).response.status
        = 404) := by
  refine ⟨rfl, rfl, ?_, ?_⟩
  · intro payload hrepo
    have hm : mandate_get repo (get_mandate path).payload ctx = Except.ok payload := by
      simp only [mandate_get, get_mandate]
      rw [hrepo]
    unfold dispatch
    rw [hauth]
    show invokeHandler (get_mandate path).flow
      (mandate_get repo (get_mandate path).payload) ctx [Event.handler_invoked] table = _
    unfold invokeHandler
    rw [hm]
    rfl
  · intro hrepo
    have hm : mandate_get repo (get_mandate path).payload ctx
        = Except.error DomainError.NotFound := by
      simp only [mandate_get, get_mandate]
      rw [hrepo]
    unfold dispatch
    rw [hauth]
    show (invokeHandler (get_mandate path).flow
      (mandate_get repo (get_mandate path).payload) ctx
      [Event.handler_invoked] table).response.status = 404
    unfold invokeHandler
    rw [hm]
    rfl

/-- C5 witness: in `envOk` with a repository holding the mandate, the retrieve
dispatch at path "mdt_1" returns 200 with the payload. -/
theorem get_mandate_contract_witness :
    dispatch envOk (get_mandate "mdt_1").flow (get_mandate "mdt_1").auth_spec
      (get_mandate "mdt_1").lock_action
      (mandate_get (fun _ => some "payload_1") (get_mandate "mdt_1").payload)
      reqApiOnly []
    = { flow := .MandatesRetrieve,
        response := { status := 200, body := some "payload_1", auth_error := none },
        handler_calls := 1, events := [.handler_invoked], lock_table := [] } :=
  (get_mandate_contract envOk (fun _ => some "payload_1") "mdt_1" reqApiOnly []
      ctxApi rfl).2.2.1 "payload_1" rfl

/-- C7: list-query normalization rejects `limit = 0` and `limit = -1` with
`OutOfBoundsLimit` rather than clamping, and a limit within the configured
maximum (such as 50) passes through unchanged. -/
theorem limit_validation (max_limit : Int) (c : MandateListConstraints) :
    (c.limit = some 0 → normalize max_limit c = .error .OutOfBoundsLimit)
    ∧ (c.limit = some (-1) → normalize max_limit c = .error .OutOfBoundsLimit)
    ∧ (c.limit = some 50 → 50 ≤ max_limit → offsetOk c.offset = true →
        c.created_time = none → normalize max_limit c = .ok c) := by
  refine ⟨?_, ?_, ?_⟩
  · intro h
    have hl : limitOk max_limit c.limit = false := by
      rw [h]
      rfl
    unfold normalize
    rw [hl]
    rfl
  · intro h
    have hl : limitOk max_limit c.limit = false := by
      rw [h]
      rfl
    unfold normalize
    rw [hl]
    rfl
  · intro h50 hmax hoff hct
    have hl : limitOk max_limit c.limit = true := by
      rw [h50]
      simp [limitOk, hmax]
    unfold normalize
    rw [hl, hoff, hct]
    rfl

/-- C7 witness: with configured maximum 100, limit 0 is rejected with
`OutOfBoundsLimit` and limit 50 normalizes unchanged. -/
theorem limit_validation_witness :
    normalize 100 { cEmpty with limit := some 0 } = .error .OutOfBoundsLimit
    ∧ normalize 100 { cEmpty with limit := some 50, offset := some 0 }
      = .ok { cEmpty with limit := some 50, offset := some 0 } :=
  ⟨(limit_validation 100 { cEmpty with limit := some 0 }).1 rfl,
   (limit_validation 100 { cEmpty with limit := some 50, offset := some 0 }).2.2
     rfl (by decide) rfl rfl⟩

/-- C8: an acquired lock is released on every exit path of the dispatch: the
lock table after any dispatch equals the table before; every acquisition
event in the trace is matched by a release of the same key; and after a
forced handler failure returning `DomainError::Internal` the lock table holds
no entry for the request's resource key. -/
theorem lock_released_on_every_path (env : Env) (flow : Flow) (spec : AuthSpec)
    (key : String) (handler : AuthenticationData → Except DomainError String)
    (r : Request) (table : List String) :
    (dispatch env flow spec (.AcquireExclusive key) handler r table).lock_table
      = table
    ∧ (∀ k, Event.acquired k
          ∈ (dispatch env flow spec (.AcquireExclusive key) handler r table).events →
        Event.released k
          ∈ (dispatch env flow spec (.AcquireExclusive key) handler r table).events)
    ∧ (key ∉ table →
        key ∉ (dispatch env flow spec (.AcquireExclusive key)
          (fun _ => .error .Internal) r table).lock_table) := by
  refine ⟨lock_table_unchanged env flow spec _ handler r table, ?_, ?_⟩
  · intro k
    unfold dispatch
    split
    · intro hk
      simp at hk
    · rename_i ctx heq
      show Event.acquired k
          ∈ (applyLock flow (.AcquireExclusive key) handler ctx table).events →
        Event.released k
          ∈ (applyLock flow (.AcquireExclusive key) handler ctx table).events
      exact applyLock_release k key flow handler ctx table
  · intro hnot
    rw [lock_table_unchanged env flow spec (.AcquireExclusive key)
      (fun _ => Except.error DomainError.Internal) r table]
    exact hnot

/-- C8 witness: with the lock free, a revoke-style dispatch whose handler is
forced to fail with `DomainError::Internal` acquires and releases the lock
and leaves no entry for the key in the lock table. -/
theorem lock_released_on_every_path_witness :
    Event.released "mdt_1"
      ∈ (dispatch envOk Flow.MandatesRevoke (.Single (.HeaderAuth .ApiKeyAuth))
          (.AcquireExclusive "mdt_1") (fun _ => .error .Internal)
          reqApiOnly []).events
    ∧ ¬ "mdt_1" ∈ (dispatch envOk Flow.MandatesRevoke
          (.Single (.HeaderAuth .ApiKeyAuth)) (.AcquireExclusive "mdt_1")
          (fun _ => .error .Internal) reqApiOnly []).lock_table :=
  ⟨(lock_released_on_every_path envOk Flow.MandatesRevoke
      (.Single (.HeaderAuth .ApiKeyAuth)) "mdt_1"
      (fun _ => .error .Internal) reqApiOnly []).2.1 "mdt_1" (by decide),
   (lock_released_on_every_path envOk Flow.MandatesRevoke
      (.Single (.HeaderAuth .ApiKeyAuth)) "mdt_1"
      (fun _ => .error .Internal) reqApiOnly []).2.2 (by decide)⟩

/-- C9 counterexample: at the empty path segment both the retrieve and the
revoke handler wrap the empty string into a `MandateId` and pass it onward,
so the claim that an empty identifier is never wrapped fails. -/
theorem empty_mandate_id_wrapped_cex :
    ¬ (∀ path : String, (get_mandate path).payload.mandate_id ≠ ""
        ∧ (revoke_mandate path).payload.mandate_id ≠ "") :=
  fun h => (h "").1 rfl

/-- C9 (amended): the retrieve and revoke route handlers wrap the raw path
segment into `MandateId` unchanged and perform no emptiness validation, so
the `MandateId` carried into dispatch is non-empty exactly when the path
segment is non-empty. -/
theorem mandate_id_passthrough (path : String) :
    (get_mandate path).payload.mandate_id = path
    ∧ (revoke_mandate path).payload.mandate_id = path
    ∧ (path ≠ "" →
        (get_mandate path).payload.mandate_id ≠ ""
        ∧ (revoke_mandate path).payload.mandate_id ≠ "") :=
  ⟨rfl, rfl, fun h => ⟨h, h⟩⟩

/-- C9 witness: a non-empty path yields a non-empty `MandateId` in both
handlers. -/
theorem mandate_id_passthrough_witness :
    (get_mandate "mdt_2").payload.mandate_id ≠ ""
    ∧ (revoke_mandate "mdt_2").payload.mandate_id ≠ "" :=
  (mandate_id_passthrough "mdt_2").2.2 (by decide)

/-- C10: when the exact `created_time` filter is present (and limit/offset
pass validation), normalization keeps the exact timestamp, drops the
comparison variants, and passes every other filter field through untouched. -/
theorem created_time_precedence (max_limit : Int) (c : MandateListConstraints)
    (t : Int) (hl : limitOk max_limit c.limit = true)
    (ho : offsetOk c.offset = true) (ht : c.created_time = some t) :
    normalize max_limit c
      = .ok { c with created_time_lt := none, created_time_gt := none,
                     created_time_lte := none, created_time_gte := none }
    ∧ ∀ q, normalize max_limit c = .ok q →
        q.created_time = some t ∧ q.created_time_lt = none
        ∧ q.created_time_gt = none ∧ q.created_time_lte = none
        ∧ q.created_time_gte = none ∧ q.limit = c.limit ∧ q.offset = c.offset
        ∧ q.mandate_status = c.mandate_status ∧ q.connector = c.connector := by
  have hnorm : normalize max_limit c
      = .ok { c with created_time_lt := none, created_time_gt := none,
                     created_time_lte := none, created_time_gte := none } := by
    unfold normalize
    rw [hl, ho, ht]
    rfl
  refine ⟨hnorm, ?_⟩
  intro q hq
  rw [hnorm] at hq
  injection hq with h
  subst h
  exact ⟨ht, rfl, rfl, rfl, rfl, rfl, rfl, rfl, rfl⟩

/-- C10 witness: a concrete constraint set with both the exact filter and all
four comparison filters present normalizes to the exact filter alone, other
fields untouched. -/
theorem created_time_precedence_witness :
    normalize 100
      { limit := some 10, offset := some 0, mandate_status := some .Active,
        connector := some "stripe", created_time := some 5,
        created_time_lt := some 1, created_time_gt := some 2,
        created_time_lte := some 3, created_time_gte := some 4 }
      = .ok { limit := some 10, offset := some 0, mandate_status := some .Active,
              connector := some "stripe", created_time := some 5,
              created_time_lt := none, created_time_gt := none,
              created_time_lte := none, created_time_gte := none } :=
  (created_time_precedence 100
      { limit := some 10, offset := some 0, mandate_status := some .Active,
        connector := some "stripe", created_time := some 5,
        created_time_lt := some 1, created_time_gt := some 2,
        created_time_lte := some 3, created_time_gte := some 4 }
      5 rfl rfl rfl).1

end Mandates
